import Mathlib

/-!
Shallow embedding of the core of `src/app.py` (Infinity-Chat): the in-memory
context store `extracted_texts`, the content extractor
`extract_text_from_url`, the `/process_url`, `/chat` and `/chatbot-design`
handlers, and the per-minute rate limit applied to `/process_url` and
`/chat`.

External effects are passed in as explicit outcome values: the result of the
outbound `requests.get` call is a `FetchOutcome`, the result of the Together
chat-completion call is a `CompletionOutcome`, and the random
`uuid.uuid4().hex` value is a 128-bit natural number.  Each Flask handler
becomes a pure function from the current process state and these outcomes to
an HTTP response plus the successor state.
-/

namespace InfinityChat

/-- The default string of `extracted_texts.get(api_key, ...)` in the `/chat`
handler (src/app.py line 248). -/
def noContextSentinel : String := "No context available for this API key."

/-- The global dict `extracted_texts` (src/app.py line 46), embedded as an
association list; a later binding for the same key shadows an earlier one,
matching dict assignment. -/
abbrev Store := List (String × String)

/-- `extracted_texts[api_key] = extracted_text` (src/app.py line 111):
dict insert-or-overwrite. -/
def storePut (s : Store) (k v : String) : Store := (k, v) :: s

/-- Plain dict lookup, first (= most recent) binding wins. -/
def storeGet (s : Store) (k : String) : Option String := s.lookup k

/-- `extracted_texts.get(api_key, default)` (src/app.py line 248). -/
def storeGetD (s : Store) (k : String) (d : String) : String :=
  (storeGet s k).getD d

/-- Python truthiness test `if not x` on an optional string: `None` and the
empty string are falsy. -/
def isBlank : Option String → Bool
  | none => true
  | some s => s.isEmpty

/-- Outcome of the outbound `requests.get(url)` call in
`extract_text_from_url` (src/app.py line 56).  `requests.get` raises a
`RequestException` on transport-level failure (connection error, timeout) and
otherwise returns the response object for every HTTP status code; the body is
embedded already parsed, as the ordered list of `<p>`-element texts that
`BeautifulSoup.find_all('p')` would yield. -/
inductive FetchOutcome where
  | httpResponse (status : Nat) (paragraphs : List String)
  | transportError (msg : String)
deriving DecidableEq, Repr

/-- `extract_text_from_url` (src/app.py lines 55-58): a raised transport
error propagates as the error case; any HTTP response — its status code is
never inspected — yields the paragraph texts joined by single spaces. -/
def extract_text_from_url : FetchOutcome → Except String String
  | .transportError m => .error m
  | .httpResponse _ paras => .ok (String.intercalate " " paras)

/-- One role-tagged message of the prompt sent to the completion call. -/
structure Message where
  role : String
  content : String
deriving DecidableEq, Repr

/-- Outcome of the `client.chat.completions.create(...)` call (src/app.py
lines 259-267): a reply, or one of the three exception classes caught by the
`/chat` handler (`requests.exceptions.RequestException`, `Together.APIError`,
any other `Exception`). -/
inductive CompletionOutcome where
  | ok (reply : String)
  | requestException (msg : String)
  | apiError (msg : String)
  | unexpected (msg : String)
deriving DecidableEq, Repr

/-- A JSON object body or an HTML body, as produced by `jsonify` /
`Response(..., mimetype='text/html')`. -/
inductive Body where
  | jsonObj (fields : List (String × String))
  | htmlBody (s : String)
deriving DecidableEq, Repr

/-- `jsonify({"error": e})`. -/
def errBody (e : String) : Body := Body.jsonObj [("error", e)]

structure HttpResponse where
  status : Nat
  body : Body
deriving DecidableEq, Repr

/-- The fixed text preceding the context in the system message (src/app.py
line 252). -/
def trainedOnPre : String :=
  "You are a chatbot trained on the following website content: "

/-- Result of one `/chat` request: the HTTP response, and the message list
sent to the completion capability (`none` when the call was never made). -/
structure ChatResult where
  resp : HttpResponse
  prompt : Option (List Message)
deriving DecidableEq, Repr

/-- The `/chat` handler (src/app.py lines 238-279).  `input` and `api_key`
are the two fields read from the request JSON (`none` when a field is
absent); `outcome` is what the completion call does once invoked. -/
def chat (store : Store) (input apiKey : Option String)
    (outcome : CompletionOutcome) : ChatResult :=
  if isBlank input || isBlank apiKey then
    ⟨⟨400, errBody "Input and API key are required"⟩, none⟩
  else
    let userInput := input.getD ""
    let key := apiKey.getD ""
    let context := storeGetD store key noContextSentinel
    let messages : List Message :=
      [⟨"system", trainedOnPre ++ context⟩, ⟨"user", userInput⟩]
    match outcome with
    | .ok r => ⟨⟨200, .jsonObj [("response", r)]⟩, some messages⟩
    | .requestException m =>
        ⟨⟨503, errBody ("Network error: " ++ m)⟩, some messages⟩
    | .apiError m =>
        ⟨⟨500, errBody ("Together API error: " ++ m)⟩, some messages⟩
    | .unexpected m =>
        ⟨⟨500, errBody ("Unexpected error: " ++ m)⟩, some messages⟩

/-- `'0'..'9','a'..'f'` for a nibble, as Python renders lowercase hex. -/
def hexDigit (n : Nat) : Char :=
  if n < 10 then Char.ofNat (48 + n) else Char.ofNat (87 + n)

/-- The `k` lowercase hex digits of `n % 16^k`, most significant first:
Python's `uuid.uuid4().hex` is this with `k = 32`. -/
def hexChars : Nat → Nat → List Char
  | 0, _ => []
  | k + 1, n => hexChars k (n / 16) ++ [hexDigit (n % 16)]

/-- The 32-character zero-padded lowercase hex rendering of a 128-bit value,
i.e. `uuid.uuid4().hex`. -/
def hex32 (n : Nat) : String := String.mk (hexChars 32 n)

/-- `f"user_{uuid.uuid4().hex}"` (src/app.py line 110), applied to the
128-bit value drawn by `uuid4`. -/
def freshApiKey (n : Nat) : String := "user_" ++ hex32 n

/-- Literal text of `generate_integration_script` before the interpolated
`api_key` (src/app.py lines 132-156). -/
def integPre : String :=
  "\n<script>\n(function() \x7b\n    var script = document.createElement(\x27script\x27);\n    script.src = \x27https://cdn.jsdelivr.net/npm/axios/dist/axios.min.js\x27;\n    script.onload = function() \x7b\n        var chatbotScript = document.createElement(\x27script\x27);\n        chatbotScript.textContent = \x60\n            axios.get(\x27https://chatcat-s1ny.onrender.com/chatbot-design?api_key="

/-- Literal text of `generate_integration_script` after the interpolated
`api_key`. -/
def integPost : String :=
  "\x27)\n                .then(function(response) \x7b\n                    var div = document.createElement(\x27div\x27);\n                    div.innerHTML = response.data;\n                    document.body.appendChild(div);\n                \x7d)\n                .catch(function(error) \x7b\n                    console.error(\x27Error loading chatbot:\x27, error);\n                \x7d);\n        \x60;\n        document.body.appendChild(chatbotScript);\n    \x7d;\n    document.body.appendChild(script);\n\x7d)();\n</script>\n"

/-- `generate_integration_script(api_key)` (src/app.py lines 132-156). -/
def generate_integration_script (apiKey : String) : String :=
  integPre ++ apiKey ++ integPost

/-- The process state the core mutates: the context store dict and the
session user's decoded `api_keys` list (the JSON column of the `User` row,
src/app.py line 53). -/
structure AppState where
  store : Store
  userKeys : List String
deriving DecidableEq, Repr

/-- Result of one `/process_url` request: response, successor state, and
whether the handler reached the outbound extraction fetch. -/
structure ProcessResult where
  resp : HttpResponse
  state : AppState
  fetchAttempted : Bool
deriving DecidableEq, Repr

/-- The `/process_url` handler (src/app.py lines 98-130).  `loggedIn` is the
`'user_id' in session` test, `url` the request field, `fetch` the outcome of
the outbound `requests.get`, and `uuidHex` the 128-bit value drawn by
`uuid.uuid4()`.  On success the text is stored under the fresh key *before*
the key is appended to the user's list; a raised fetch error is caught by the
`except` block and leaves both unchanged. -/
def process_url (st : AppState) (loggedIn : Bool) (url : Option String)
    (fetch : FetchOutcome) (uuidHex : Nat) : ProcessResult :=
  if !loggedIn then ⟨⟨401, errBody "User not logged in"⟩, st, false⟩
  else if isBlank url then ⟨⟨400, errBody "No URL provided"⟩, st, false⟩
  else
    match extract_text_from_url fetch with
    | .error e => ⟨⟨500, errBody e⟩, st, true⟩
    | .ok text =>
        let key := freshApiKey uuidHex
        ⟨⟨200, .jsonObj
            [("message", "Processing complete"), ("api_key", key),
             ("integration_code", generate_integration_script key)]⟩,
         ⟨storePut st.store key text, st.userKeys ++ [key]⟩, true⟩

/-- Literal text of the `/chatbot-design` widget before the interpolated
`api_key` (src/app.py lines 164-234). -/
def designPre : String :=
  "\n    <!-- AI Chatbot -->\n    <div id=\"ai-chatbot\" style=\"position: fixed; bottom: 20px; right: 20px; width: 300px; height: 400px; background-color: \x23f1f1f1; border-radius: 10px; box-shadow: 0 0 10px rgba(0,0,0,0.1); display: flex; flex-direction: column; overflow: hidden;\">\n        <div style=\"background-color: \x23007bff; color: white; padding: 10px; font-weight: bold;\">AI Chatbot</div>\n        <div id=\"chat-messages\" style=\"flex-grow: 1; overflow-y: auto; padding: 10px;\"></div>\n        <div style=\"padding: 10px; border-top: 1px solid \x23ddd;\">\n            <input type=\"text\" id=\"user-input\" placeholder=\"Type your message...\" style=\"width: 80%; padding: 5px;\">\n            <button onclick=\"sendMessage()\" style=\"width: 18%; padding: 5px;\">Send</button>\n        </div>\n    </div>\n\n    <script>\n    console.log(\x27Chatbot script loaded\x27);\n    const chatWithAI = async (input) => \x7b\n        console.log(\x27Sending message to AI:\x27, input);\n        try \x7b\n            const response = await axios.post(\x27https://chatcat-s1ny.onrender.com/chat\x27, \x7b\n                input: input,\n                api_key: \x27"

/-- Literal text of the `/chatbot-design` widget after the interpolated
`api_key`. -/
def designPost : String :=
  "\x27\n            \x7d);\n            console.log(\x27Received response from AI:\x27, response.data);\n            return response.data.response;\n        \x7d catch (error) \x7b\n            console.error(\x27Error in chatWithAI:\x27, error);\n            if (error.response) \x7b\n                console.error(\x27Error response:\x27, error.response.data);\n                return \x60Server Error: $\x7berror.response.data.error || \x27Unknown server error\x27\x7d\x60;\n            \x7d else if (error.request) \x7b\n                console.error(\x27No response received\x27);\n                return \x27Network Error: No response received from the server. Please check your internet connection.\x27;\n            \x7d else \x7b\n                console.error(\x27Error message:\x27, error.message);\n                return \x60Error: $\x7berror.message\x7d\x60;\n            \x7d\n        \x7d\n    \x7d;\n\n    function addMessage(sender, message) \x7b\n        console.log(\x60Adding message from $\x7bsender\x7d:\x60, message);\n        const chatMessages = document.getElementById(\x27chat-messages\x27);\n        const messageElement = document.createElement(\x27div\x27);\n        messageElement.innerHTML = \x60<strong>$\x7bsender\x7d:</strong> $\x7bmessage\x7d\x60;\n        chatMessages.appendChild(messageElement);\n        chatMessages.scrollTop = chatMessages.scrollHeight;\n    \x7d\n\n    async function sendMessage() \x7b\n        const userInput = document.getElementById(\x27user-input\x27);\n        const message = userInput.value.trim();\n        if (message) \x7b\n            console.log(\x27User sending message:\x27, message);\n            addMessage(\x27You\x27, message);\n            userInput.value = \x27\x27;\n            const response = await chatWithAI(message);\n            console.log(\x27Received AI response:\x27, response);\n            addMessage(\x27AI\x27, response);\n        \x7d\n    \x7d\n\n    // Initialize chat\n    console.log(\x27Initializing chat\x27);\n    addMessage(\x27AI\x27, \x27Hello! How can I assist you today?\x27);\n\n    // Add event listener for Enter key\n    document.getElementById(\x27user-input\x27).addEventListener(\x27keypress\x27, function(event) \x7b\n        if (event.key === \x27Enter\x27) \x7b\n            sendMessage();\n        \x7d\n    \x7d);\n    </script>\n    "

/-- The `/chatbot-design` handler (src/app.py lines 158-236).  It takes the
full process state only because the Python handler runs with the globals in
scope; the body, like the source, reads neither the context store nor the
user's key list. -/
def chatbot_design (st : AppState) (apiKey : Option String) : HttpResponse :=
  match st with
  | _ =>
    if isBlank apiKey then ⟨400, errBody "API key is required"⟩
    else ⟨200, .htmlBody (designPre ++ apiKey.getD "" ++ designPost)⟩

/-- One request against the process, abstracted to how it touches the shared
state.  `processUrl` is the only handler in src/app.py that writes to
`extracted_texts` or to the user's key list; `/chat` and `/chatbot-design`
only read; every other route (`/register`, `/login`, `/logout`, `/`,
`/user/api_keys`) touches neither, and `readOnly` stands for them. -/
inductive Op where
  | processUrl (loggedIn : Bool) (url : Option String) (fetch : FetchOutcome)
      (uuidHex : Nat)
  | chatOp (input apiKey : Option String) (outcome : CompletionOutcome)
  | designOp (apiKey : Option String)
  | readOnly
deriving DecidableEq, Repr

/-- State transition of one request. -/
def applyOp (st : AppState) : Op → AppState
  | .processUrl l u f n => (process_url st l u f n).state
  | .chatOp _ _ _ => st
  | .designOp _ => st
  | .readOnly => st

/-- State after a sequence of requests. -/
def applyOps (st : AppState) : List Op → AppState
  | [] => st
  | op :: ops => applyOps (applyOp st op) ops

/-- The put-key of an operation: the API key a `processUrl` step would bind
in the context store (drawn from its uuid), if any. -/
def putKey : Op → Option String
  | .processUrl _ _ _ n => some (freshApiKey n)
  | _ => none

/-- Modelled from the spec: the `@limiter.limit("5 per minute")` policy that
flask_limiter (a library, not part of src/) applies to `/process_url` and
`/chat` (src/app.py lines 99 and 239).  Within one window the limiter keeps a
per-client request count; a request is admitted while the count of prior
requests in the window is below the threshold, and every request advances the
count. -/
def perMinuteLimit : Nat := 5

/-- Modelled from the spec: whether a request is admitted given the number of
prior qualifying requests by the same client inside the current 60-second
window. -/
def limiterAllows (priorCount : Nat) : Bool := priorCount < perMinuteLimit

/-- Modelled from the spec: the `RateLimited` rejection (HTTP 429) produced
by the limiter before the handler body runs. -/
def rateLimitedResp : HttpResponse := ⟨429, errBody "Too Many Requests"⟩

/-- Modelled from the spec: `/chat` behind its 5-per-minute limit.  A
rejected request never reaches the handler, so the completion capability is
not invoked (`prompt = none`); an admitted one runs `chat` unchanged.  Either
way the client's in-window count advances. -/
def guardedChat (priorCount : Nat) (store : Store) (input apiKey : Option String)
    (outcome : CompletionOutcome) : ChatResult × Nat :=
  if limiterAllows priorCount then
    (chat store input apiKey outcome, priorCount + 1)
  else
    (⟨rateLimitedResp, none⟩, priorCount + 1)

/-- Modelled from the spec: `/process_url` behind the same 5-per-minute
limit.  A rejected request never reaches the handler: no extraction fetch, no
state change. -/
def guardedProcessUrl (priorCount : Nat) (st : AppState) (loggedIn : Bool)
    (url : Option String) (fetch : FetchOutcome) (uuidHex : Nat) :
    ProcessResult × Nat :=
  if limiterAllows priorCount then
    (process_url st loggedIn url fetch uuidHex, priorCount + 1)
  else
    (⟨rateLimitedResp, st, false⟩, priorCount + 1)

/-- The three request fields of one `/chat` call, for running sequences of
guarded requests. -/
structure ChatReq where
  input : Option String
  apiKey : Option String
  outcome : CompletionOutcome
deriving DecidableEq, Repr

/-- Run a sequence of `/chat` requests from one client inside a single
60-second window, threading the limiter count. -/
def runChats (store : Store) : List ChatReq → Nat → List ChatResult × Nat
  | [], c => ([], c)
  | r :: rs, c =>
      let (res, c') := guardedChat c store r.input r.apiKey r.outcome
      let (l, cf) := runChats store rs c'
      (res :: l, cf)

/-! ### Helper lemmas -/

theorem isBlank_some_eq_false {s : String} (h : s ≠ "") :
    isBlank (some s) = false := by
  cases he : s.isEmpty
  · simp [isBlank, he]
  · exact absurd ((String.isEmpty_iff s).mp he) h

theorem storeGet_put_self (s : Store) (k v : String) :
    storeGet (storePut s k v) k = some v := by
  simp [storeGet, storePut, List.lookup]

theorem storeGet_put_ne (s : Store) (k k' v : String) (h : k' ≠ k) :
    storeGet (storePut s k' v) k = storeGet s k := by
  have hb : (k == k') = false := beq_eq_false_iff_ne.mpr (Ne.symm h)
  simp [storeGet, storePut, List.lookup, hb]

theorem chat_valid_eq (store : Store) (m k : String) (outcome : CompletionOutcome)
    (hm : m ≠ "") (hk : k ≠ "") :
    chat store (some m) (some k) outcome =
      { resp :=
          match outcome with
          | .ok r => ⟨200, .jsonObj [("response", r)]⟩
          | .requestException e => ⟨503, errBody ("Network error: " ++ e)⟩
          | .apiError e => ⟨500, errBody ("Together API error: " ++ e)⟩
          | .unexpected e => ⟨500, errBody ("Unexpected error: " ++ e)⟩,
        prompt := some
          [⟨"system", trainedOnPre ++ storeGetD store k noContextSentinel⟩,
           ⟨"user", m⟩] } := by
  rw [chat, isBlank_some_eq_false hm, isBlank_some_eq_false hk]
  cases outcome <;> rfl

/-! ### Theorems for the claims -/

/-- C2: a key absent from the context store resolves, as a normal value, to
the sentinel `"No context available for this API key."`; the `/chat` handler
consumes it straight into the system message and the request still succeeds
(here: with the completion reply), rather than surfacing a failure. -/
theorem get_missing_key_sentinel (store : Store) (k m r : String)
    (habs : storeGet store k = none) (hm : m ≠ "") (hk : k ≠ "") :
    storeGetD store k noContextSentinel = noContextSentinel
    ∧ chat store (some m) (some k) (.ok r) =
        ⟨⟨200, .jsonObj [("response", r)]⟩,
         some [⟨"system", trainedOnPre ++ noContextSentinel⟩, ⟨"user", m⟩]⟩ := by
  have hD : storeGetD store k noContextSentinel = noContextSentinel := by
    simp [storeGetD, habs]
  refine ⟨hD, ?_⟩
  rw [chat_valid_eq store m k (.ok r) hm hk, hD]

/-- C2 witness. -/
theorem get_missing_key_sentinel_witness :
    storeGetD [("user_a", "t")] "user_b" noContextSentinel = noContextSentinel
    ∧ chat [("user_a", "t")] (some "hi") (some "user_b") (.ok "ok") =
        ⟨⟨200, .jsonObj [("response", "ok")]⟩,
         some [⟨"system", trainedOnPre ++ noContextSentinel⟩, ⟨"user", "hi"⟩]⟩ :=
  get_missing_key_sentinel [("user_a", "t")] "user_b" "hi" "ok"
    (by decide) (by decide) (by decide)

/-- C3: for every valid request the `/chat` handler builds exactly the
two-message prompt — a system message `trainedOnPre ++ context` where the
context is the stored text or, for an unknown key, the literal sentinel, and
a user message holding the input verbatim — and the completion capability is
invoked on it (also for unknown keys). -/
theorem chat_prompt_construction (store : Store) (m k : String)
    (outcome : CompletionOutcome) (hm : m ≠ "") (hk : k ≠ "") :
    (chat store (some m) (some k) outcome).prompt =
      some [⟨"system", trainedOnPre ++ storeGetD store k noContextSentinel⟩,
            ⟨"user", m⟩]
    ∧ (storeGet store k = none →
        (chat store (some m) (some k) outcome).prompt =
          some [⟨"system", trainedOnPre ++ noContextSentinel⟩, ⟨"user", m⟩])
    ∧ ((chat store (some m) (some k) outcome).prompt).isSome = true := by
  rw [chat_valid_eq store m k outcome hm hk]
  refine ⟨rfl, ?_, rfl⟩
  intro habs
  simp [storeGetD, habs]

/-- C3 witness. -/
theorem chat_prompt_construction_witness :
    (chat [] (some "hello") (some "user_x") (.ok "r")).prompt =
      some [⟨"system", trainedOnPre ++ storeGetD [] "user_x" noContextSentinel⟩,
            ⟨"user", "hello"⟩]
    ∧ (storeGet [] "user_x" = none →
        (chat [] (some "hello") (some "user_x") (.ok "r")).prompt =
          some [⟨"system", trainedOnPre ++ noContextSentinel⟩, ⟨"user", "hello"⟩])
    ∧ ((chat [] (some "hello") (some "user_x") (.ok "r")).prompt).isSome = true :=
  chat_prompt_construction [] "hello" "user_x" (.ok "r") (by decide) (by decide)

/-- C4: a missing or empty `input` or `api_key` makes `/chat` answer 400
with the fixed error body, and the completion capability is never invoked
(`prompt = none`). -/
theorem chat_bad_request (store : Store) (input apiKey : Option String)
    (outcome : CompletionOutcome)
    (h : isBlank input = true ∨ isBlank apiKey = true) :
    chat store input apiKey outcome =
      ⟨⟨400, errBody "Input and API key are required"⟩, none⟩ := by
  rw [chat]
  rcases h with h | h <;> simp [h]

/-- C4 witness. -/
theorem chat_bad_request_witness :
    chat [("user_a", "t")] (some "") (some "user_a") (.ok "r") =
      ⟨⟨400, errBody "Input and API key are required"⟩, none⟩
    ∧ chat [("user_a", "t")] (some "hi") none (.ok "r") =
      ⟨⟨400, errBody "Input and API key are required"⟩, none⟩ :=
  ⟨chat_bad_request [("user_a", "t")] (some "") (some "user_a") (.ok "r")
      (Or.inl (by decide)),
   chat_bad_request [("user_a", "t")] (some "hi") none (.ok "r")
      (Or.inr (by decide))⟩

/-- C5: the `/chat` handler is a total function that maps each failure of
the completion call to a typed JSON error response — transport failure to
503, a Together-reported error to 500, anything else to 500 — each with an
`error` field. -/
theorem chat_failure_mapping (store : Store) (m k e : String)
    (hm : m ≠ "") (hk : k ≠ "") :
    (chat store (some m) (some k) (.requestException e)).resp =
      ⟨503, errBody ("Network error: " ++ e)⟩
    ∧ (chat store (some m) (some k) (.apiError e)).resp =
      ⟨500, errBody ("Together API error: " ++ e)⟩
    ∧ (chat store (some m) (some k) (.unexpected e)).resp =
      ⟨500, errBody ("Unexpected error: " ++ e)⟩ := by
  rw [chat_valid_eq store m k (.requestException e) hm hk,
      chat_valid_eq store m k (.apiError e) hm hk,
      chat_valid_eq store m k (.unexpected e) hm hk]
  exact ⟨rfl, rfl, rfl⟩

/-- C5 witness. -/
theorem chat_failure_mapping_witness :
    (chat [] (some "hi") (some "user_a") (.requestException "boom")).resp =
      ⟨503, errBody ("Network error: " ++ "boom")⟩
    ∧ (chat [] (some "hi") (some "user_a") (.apiError "boom")).resp =
      ⟨500, errBody ("Together API error: " ++ "boom")⟩
    ∧ (chat [] (some "hi") (some "user_a") (.unexpected "boom")).resp =
      ⟨500, errBody ("Unexpected error: " ++ "boom")⟩ :=
  chat_failure_mapping [] "hi" "user_a" "boom" (by decide) (by decide)

/-- C8 counterexample: the fetch returns HTTP 404 — not a 2xx — yet
`extract_text_from_url` succeeds with the joined paragraph text, because the
code never inspects `response.status_code`. -/
theorem extract_ok_despite_404 :
    extract_text_from_url (.httpResponse 404 ["This page does not exist."]) =
      .ok "This page does not exist."
    ∧ ¬ (200 ≤ 404 ∧ 404 < 300) := by
  exact ⟨rfl, by decide⟩

/-- C8 amended: `extract_text_from_url` fails (propagates the raised
exception) exactly on transport-level failure of `requests.get` — network
error or timeout — and succeeds on every HTTP response regardless of status
code, returning the paragraph texts joined by single spaces. -/
theorem extract_fetch_behavior (f : FetchOutcome) :
    (∀ e, f = .transportError e → extract_text_from_url f = .error e)
    ∧ (∀ status paras, f = .httpResponse status paras →
        extract_text_from_url f = .ok (String.intercalate " " paras)) := by
  cases f with
  | httpResponse s p =>
      refine ⟨?_, ?_⟩
      · intro e he; cases he
      · intro status paras he; cases he; rfl
  | transportError m =>
      refine ⟨?_, ?_⟩
      · intro e he; cases he; rfl
      · intro status paras he; cases he

/-- C8 amended witness. -/
theorem extract_fetch_behavior_witness :
    extract_text_from_url (.transportError "connection refused") =
      .error "connection refused"
    ∧ extract_text_from_url (.httpResponse 200 ["Hello.", "World."]) =
      .ok (String.intercalate " " ["Hello.", "World."]) :=
  ⟨(extract_fetch_behavior (.transportError "connection refused")).1
      "connection refused" rfl,
   (extract_fetch_behavior (.httpResponse 200 ["Hello.", "World."])).2
      200 ["Hello.", "World."] rfl⟩

/-- C10: `/chatbot-design` answers any non-empty `api_key` — validated
against nothing — with the 200 HTML widget embedding that key verbatim, and
its output is independent of the context store and the user registry. -/
theorem chatbot_design_spec (st st' : AppState) (k : String) (hk : k ≠ "") :
    chatbot_design st (some k) =
      ⟨200, .htmlBody (designPre ++ k ++ designPost)⟩
    ∧ chatbot_design st (some k) = chatbot_design st' (some k) := by
  constructor
  · rw [chatbot_design, isBlank_some_eq_false hk]
    rfl
  · rfl

/-- C10 witness: a key that was never generated and has no stored context. -/
theorem chatbot_design_spec_witness :
    chatbot_design ⟨[], []⟩ (some "user_never_generated") =
      ⟨200, .htmlBody (designPre ++ "user_never_generated" ++ designPost)⟩
    ∧ chatbot_design ⟨[], []⟩ (some "user_never_generated") =
      chatbot_design ⟨[("user_a", "t")], ["user_a"]⟩ (some "user_never_generated") :=
  chatbot_design_spec ⟨[], []⟩ ⟨[("user_a", "t")], ["user_a"]⟩
    "user_never_generated" (by decide)

/-! ### Hex-key lemmas -/

/-- A lowercase hexadecimal character. -/
def isHexChar (c : Char) : Bool := c.isDigit || ('a' ≤ c && c ≤ 'f')

theorem hexChars_length (k : Nat) : ∀ n, (hexChars k n).length = k := by
  induction k with
  | zero => intro n; rfl
  | succ k ih => intro n; rw [hexChars]; simp [ih]

theorem hexDigit_hex : ∀ d, d < 16 → isHexChar (hexDigit d) = true := by decide

theorem hexDigit_inj : ∀ a, a < 16 → ∀ b, b < 16 → hexDigit a = hexDigit b → a = b := by
  decide

theorem hexChars_mem_hex (k : Nat) : ∀ n c, c ∈ hexChars k n → isHexChar c = true := by
  induction k with
  | zero => intro n c hc; cases hc
  | succ k ih =>
      intro n c hc
      rw [hexChars] at hc
      rcases List.mem_append.mp hc with h | h
      · exact ih _ _ h
      · rcases List.mem_singleton.mp h with rfl
        exact hexDigit_hex _ (Nat.mod_lt _ (by norm_num))

theorem hexChars_inj (k : Nat) : ∀ m n, m < 16 ^ k → n < 16 ^ k →
    hexChars k m = hexChars k n → m = n := by
  induction k with
  | zero =>
      intro m n hm hn _
      rw [pow_zero] at hm hn
      omega
  | succ k ih =>
      intro m n hm hn he
      rw [hexChars, hexChars] at he
      have hlen : (hexChars k (m / 16)).length = (hexChars k (n / 16)).length := by
        rw [hexChars_length, hexChars_length]
      obtain ⟨h1, h2⟩ := List.append_inj he hlen
      have hd : hexDigit (m % 16) = hexDigit (n % 16) := by simpa using h2
      have hmod : m % 16 = n % 16 :=
        hexDigit_inj _ (Nat.mod_lt _ (by norm_num)) _ (Nat.mod_lt _ (by norm_num)) hd
      have hm' : m / 16 < 16 ^ k := by
        rw [pow_succ] at hm
        exact (Nat.div_lt_iff_lt_mul (by norm_num)).mpr hm
      have hn' : n / 16 < 16 ^ k := by
        rw [pow_succ] at hn
        exact (Nat.div_lt_iff_lt_mul (by norm_num)).mpr hn
      have hdiv : m / 16 = n / 16 := ih _ _ hm' hn' h1
      omega

theorem freshApiKey_inj (m n : Nat) (hm : m < 16 ^ 32) (hn : n < 16 ^ 32)
    (h : freshApiKey m = freshApiKey n) : m = n := by
  have hd := congrArg String.data h
  rw [freshApiKey, freshApiKey, String.data_append, String.data_append] at hd
  exact hexChars_inj 32 m n hm hn (List.append_cancel_left hd)

theorem freshApiKey_ne_empty (n : Nat) : freshApiKey n ≠ "" := by
  intro h
  have hd := congrArg (fun s => s.data.length) h
  simp only [freshApiKey, String.data_append, List.length_append] at hd
  simp at hd

/-! ### Store-preservation lemmas -/

theorem process_url_store_other (st : AppState) (l : Bool) (u : Option String)
    (f : FetchOutcome) (n : Nat) (k : String) (h : freshApiKey n ≠ k) :
    storeGet (process_url st l u f n).state.store k = storeGet st.store k := by
  cases l with
  | false => rfl
  | true =>
      cases hu : isBlank u with
      | true => simp [process_url, hu]
      | false =>
          cases f with
          | transportError e => simp [process_url, hu, extract_text_from_url]
          | httpResponse s p =>
              simp only [process_url, hu, extract_text_from_url, Bool.not_true,
                Bool.false_eq_true, if_false]
              exact storeGet_put_ne _ _ _ _ h

theorem applyOps_store_other (ops : List Op) :
    ∀ (st : AppState) (k : String),
      (∀ op ∈ ops, putKey op ≠ some k) →
      storeGet (applyOps st ops).store k = storeGet st.store k := by
  induction ops with
  | nil => intro st k _; rfl
  | cons op ops ih =>
      intro st k h
      rw [applyOps,
        ih (applyOp st op) k (fun o ho => h o (List.mem_cons_of_mem _ ho))]
      cases op with
      | processUrl l u f n =>
          have hne : freshApiKey n ≠ k := by
            intro he
            exact (h _ (List.mem_cons_self _ _)) (by simp [putKey, he])
          exact process_url_store_other st l u f n k hne
      | chatOp i a o => rfl
      | designOp a => rfl
      | readOnly => rfl

/-- C1: a successful `/process_url` stores the extracted text under the fresh
key; every later `get` of that key in the same process returns exactly that
text, and no subsequent request — another `/process_url` (whose key is a
fresh uuid, hence different), a `/chat`, a `/chatbot-design`, or any other
route — changes or removes the binding; in particular a later `/chat` with
that key grounds its prompt on exactly that text. -/
theorem context_store_roundtrip (st : AppState) (u : Option String)
    (status : Nat) (paras : List String) (n : Nat) (ops : List Op)
    (m : String) (outcome : CompletionOutcome)
    (hu : isBlank u = false)
    (hfresh : ∀ op ∈ ops, putKey op ≠ some (freshApiKey n))
    (hm : m ≠ "") :
    storeGet (applyOps (process_url st true u (.httpResponse status paras) n).state
        ops).store (freshApiKey n) = some (String.intercalate " " paras)
    ∧ (chat (applyOps (process_url st true u (.httpResponse status paras) n).state
          ops).store (some m) (some (freshApiKey n)) outcome).prompt =
        some [⟨"system", trainedOnPre ++ String.intercalate " " paras⟩, ⟨"user", m⟩] := by
  have hst : (process_url st true u (.httpResponse status paras) n).state.store =
      storePut st.store (freshApiKey n) (String.intercalate " " paras) := by
    simp [process_url, hu, extract_text_from_url]
  have hget : storeGet (applyOps (process_url st true u
      (.httpResponse status paras) n).state ops).store (freshApiKey n) =
      some (String.intercalate " " paras) := by
    rw [applyOps_store_other ops _ _ hfresh, hst, storeGet_put_self]
  refine ⟨hget, ?_⟩
  rw [chat_valid_eq _ m _ outcome hm (freshApiKey_ne_empty n)]
  simp [storeGetD, hget]

/-- C1 witness: put then an unrelated put and a chat, then get. -/
theorem context_store_roundtrip_witness :
    storeGet (applyOps (process_url ⟨[], []⟩ true (some "http://e.com/a")
        (.httpResponse 200 ["Hello.", "World."]) 0).state
        [.chatOp (some "hi") (some "user_zzz") (.ok "r"),
         .processUrl true (some "http://e.com/b") (.httpResponse 200 ["Other"]) 1,
         .readOnly]).store (freshApiKey 0) =
      some (String.intercalate " " ["Hello.", "World."])
    ∧ (chat (applyOps (process_url ⟨[], []⟩ true (some "http://e.com/a")
          (.httpResponse 200 ["Hello.", "World."]) 0).state
          [.chatOp (some "hi") (some "user_zzz") (.ok "r"),
           .processUrl true (some "http://e.com/b") (.httpResponse 200 ["Other"]) 1,
           .readOnly]).store (some "hi") (some (freshApiKey 0)) (.ok "r")).prompt =
        some [⟨"system", trainedOnPre ++ String.intercalate " " ["Hello.", "World."]⟩,
              ⟨"user", "hi"⟩] :=
  context_store_roundtrip ⟨[], []⟩ (some "http://e.com/a") 200 ["Hello.", "World."] 0
    [.chatOp (some "hi") (some "user_zzz") (.ok "r"),
     .processUrl true (some "http://e.com/b") (.httpResponse 200 ["Other"]) 1,
     .readOnly]
    "hi" (.ok "r") (by decide)
    (by intro op hop; fin_cases hop <;> simp [putKey]; decide)
    (by decide)

/-- C6: after any `/process_url` request, every key in the user's list is
either an old one or has a context entry in the resulting store (the text is
stored before the key is appended); and when the extraction fetch raises, the
request fails with 500 leaving both the store and the key list untouched. -/
theorem process_url_no_orphan_key (st : AppState) (loggedIn : Bool)
    (url : Option String) (fetch : FetchOutcome) (n : Nat) :
    (∀ k ∈ (process_url st loggedIn url fetch n).state.userKeys,
        k ∈ st.userKeys
        ∨ (storeGet (process_url st loggedIn url fetch n).state.store k).isSome = true)
    ∧ (∀ e, loggedIn = true → isBlank url = false → fetch = .transportError e →
        (process_url st loggedIn url fetch n).state = st
        ∧ (process_url st loggedIn url fetch n).resp = ⟨500, errBody e⟩) := by
  constructor
  · intro k hk
    cases loggedIn with
    | false => exact Or.inl hk
    | true =>
        cases hu : isBlank url with
        | true => simp only [process_url, hu] at hk; exact Or.inl (by simpa using hk)
        | false =>
            cases fetch with
            | transportError e =>
                simp only [process_url, hu, extract_text_from_url] at hk
                exact Or.inl (by simpa using hk)
            | httpResponse s p =>
                simp only [process_url, hu, extract_text_from_url, Bool.not_true,
                  Bool.false_eq_true, if_false] at hk ⊢
                rcases List.mem_append.mp hk with h | h
                · exact Or.inl h
                · rcases List.mem_singleton.mp h with rfl
                  right
                  rw [storeGet_put_self]
                  rfl
  · intro e hl hu hf
    subst hl
    subst hf
    simp [process_url, hu, extract_text_from_url]

/-- C6 witness. -/
theorem process_url_no_orphan_key_witness :
    ((freshApiKey 0) ∈ (process_url ⟨[], ["user_old"]⟩ true (some "http://e.com")
        (.httpResponse 200 ["t"]) 0).state.userKeys →
      (freshApiKey 0) ∈ (["user_old"] : List String)
      ∨ (storeGet (process_url ⟨[], ["user_old"]⟩ true (some "http://e.com")
          (.httpResponse 200 ["t"]) 0).state.store (freshApiKey 0)).isSome = true)
    ∧ ((process_url ⟨[], ["user_old"]⟩ true (some "http://e.com")
          (.transportError "conn reset") 0).state = ⟨[], ["user_old"]⟩
      ∧ (process_url ⟨[], ["user_old"]⟩ true (some "http://e.com")
          (.transportError "conn reset") 0).resp = ⟨500, errBody "conn reset"⟩) :=
  ⟨fun hk => (process_url_no_orphan_key ⟨[], ["user_old"]⟩ true (some "http://e.com")
      (.httpResponse 200 ["t"]) 0).1 (freshApiKey 0) hk,
   (process_url_no_orphan_key ⟨[], ["user_old"]⟩ true (some "http://e.com")
      (.transportError "conn reset") 0).2 "conn reset" rfl (by decide) rfl⟩

/-- C7: with the 5-per-minute limit, a client's five requests inside one
window are all admitted (the 5th is handled by the `/chat` handler itself),
the 6th is rejected with 429, and a rejected request performs no guarded
side effect: no completion call on `/chat`, no extraction fetch and no state
change on `/process_url`. -/
theorem rate_limit_sixth_rejected (store : Store) (q1 q2 q3 q4 q5 q6 : ChatReq)
    (st : AppState) (l : Bool) (u : Option String) (f : FetchOutcome) (n : Nat) :
    (runChats store [q1, q2, q3, q4, q5] 0).2 = 5
    ∧ (runChats store [q1, q2, q3, q4, q5] 0).1 =
        [chat store q1.input q1.apiKey q1.outcome,
         chat store q2.input q2.apiKey q2.outcome,
         chat store q3.input q3.apiKey q3.outcome,
         chat store q4.input q4.apiKey q4.outcome,
         chat store q5.input q5.apiKey q5.outcome]
    ∧ guardedChat 5 store q6.input q6.apiKey q6.outcome =
        (⟨rateLimitedResp, none⟩, 6)
    ∧ guardedProcessUrl 5 st l u f n = (⟨rateLimitedResp, st, false⟩, 6) := by
  refine ⟨rfl, rfl, rfl, rfl⟩

/-- C9: every generated API key is `user_` followed by the 32 lowercase hex
characters of the 128-bit uuid, and two calls drawing distinct uuid values
return distinct keys. -/
theorem freshApiKey_spec (m n : Nat) (hm : m < 16 ^ 32) (hn : n < 16 ^ 32)
    (hmn : m ≠ n) :
    (freshApiKey n).data = ("user_" : String).data ++ hexChars 32 n
    ∧ (hexChars 32 n).length = 32
    ∧ (∀ c ∈ hexChars 32 n, isHexChar c = true)
    ∧ freshApiKey m ≠ freshApiKey n := by
  refine ⟨?_, hexChars_length 32 n, fun c hc => hexChars_mem_hex 32 n c hc, ?_⟩
  · rw [freshApiKey, String.data_append]
    rfl
  · intro h
    exact hmn (freshApiKey_inj m n hm hn h)

/-- C9 witness: two distinct 128-bit draws give distinct keys. -/
theorem freshApiKey_spec_witness :
    0 < 16 ^ 32 ∧ 1 < 16 ^ 32 ∧ freshApiKey 0 ≠ freshApiKey 1 :=
  ⟨by norm_num, by norm_num,
   (freshApiKey_spec 0 1 (by norm_num) (by norm_num) (by decide)).2.2.2⟩

end InfinityChat
